import Mathlib

/-!
Shallow embedding of `src/rapidwire.py` (RapidWire_Client): the HTTP client
`RapidWireClient`, its `_request` transport/error-normalization method, the
`_check_version` startup compatibility check, and the dataclass hydration
performed by the endpoint wrappers (`SuccessResponse(**data)`,
`Balance(**data)`, `CurrencyInfo(**data)`, orderbook hydration, ...).

Conventions of the embedding:
* JSON values (the result of `response.json()` / the payload of `json=`)
  are modelled by the inductive type `Json`.  Numbers are integers: every
  ledger quantity in the source and the spec is an exact integer; JSON
  float syntax is not modelled.
* Python runtime errors are modelled by `PyOutcome`: `ok` for a normal
  return, `apiError` for a raised `RapidWireAPIError` (carrying
  `status_code` and the dynamically-typed `detail`), and `pyError` for any
  other uncaught Python exception (`TypeError`, `AttributeError`,
  `KeyError`), identified by a message string.
* The network is modelled by `TransportResult`: either a completed
  `HttpResponse` (status code plus raw body text) or a raised
  `requests.exceptions.RequestException` carrying its description string.
* `json.loads` (via `response.json()`) is modelled by the executable
  parser `parseJson`; an undecodable body yields `none`
  (`requests.exceptions.JSONDecodeError`, a subclass of
  `RequestException`).  The exact exception text rendered by the library
  is modelled by `jsonDecodeMsg`; no theorem depends on its contents
  beyond being a function of the body.
-/

/-- A JSON value, as produced by `response.json()`.  Objects keep their
fields as an ordered association list; Python dict lookup with duplicate
keys keeps the last occurrence (`dictGet`). -/
inductive Json where
  | null : Json
  | bool (b : Bool) : Json
  | num (n : Int) : Json
  | str (s : String) : Json
  | arr (elems : List Json) : Json
  | obj (fields : List (String × Json)) : Json
deriving Repr

/-- Python `dict.get` on a dict built from a JSON object: with duplicate
keys the later binding wins, as in `json.loads`. -/
def dictGet (fs : List (String × Json)) (k : String) : Option Json :=
  match fs with
  | [] => none
  | (k2, v) :: rest =>
    match dictGet rest k with
    | some v2 => some v2
    | none => if k2 = k then some v else none

/-- JSON whitespace skipping (space, tab, newline, carriage return). -/
def skipWs : List Char → List Char
  | [] => []
  | c :: cs => if c = ' ' ∨ c = '\n' ∨ c = '\t' ∨ c = '\r' then skipWs cs else c :: cs

/-- Value of a hexadecimal digit, for `\uXXXX` escapes. -/
def hexVal (c : Char) : Option Nat :=
  if '0' ≤ c ∧ c ≤ '9' then some (c.toNat - 48)
  else if 'a' ≤ c ∧ c ≤ 'f' then some (c.toNat - 87)
  else if 'A' ≤ c ∧ c ≤ 'F' then some (c.toNat - 55)
  else none

/-- Single-character JSON string escapes. -/
def escChar (e : Char) : Option Char :=
  if e = '"' then some '"'
  else if e = '\\' then some '\\'
  else if e = '/' then some '/'
  else if e = 'n' then some '\n'
  else if e = 't' then some '\t'
  else if e = 'r' then some '\r'
  else if e = 'b' then some (Char.ofNat 8)
  else if e = 'f' then some (Char.ofNat 12)
  else none

/-- Scan the characters of a JSON string literal after the opening quote,
returning the decoded characters and the input after the closing quote.
Unescaped control characters are rejected, as in `json.loads` strict mode.
Surrogate pairing of `\u` escapes is not modelled. -/
def parseStrChars : Nat → List Char → Option (List Char × List Char)
  | 0, _ => none
  | _, [] => none
  | _ + 1, '"' :: rest => some ([], rest)
  | fuel + 1, '\\' :: rest =>
    match rest with
    | [] => none
    | e :: rest2 =>
      if e = 'u' then
        match rest2 with
        | a :: b :: c :: d :: rest3 =>
          match hexVal a, hexVal b, hexVal c, hexVal d with
          | some x, some y, some z, some w =>
            (parseStrChars fuel rest3).map
              (fun p => (Char.ofNat (((x * 16 + y) * 16 + z) * 16 + w) :: p.1, p.2))
          | _, _, _, _ => none
        | _ => none
      else
        match escChar e with
        | some c => (parseStrChars fuel rest2).map (fun p => (c :: p.1, p.2))
        | none => none
  | fuel + 1, c :: rest =>
    if c.toNat < 32 then none
    else (parseStrChars fuel rest).map (fun p => (c :: p.1, p.2))

/-- Decimal digits to a natural number. -/
def digitsToNat : List Char → Nat → Nat
  | [], acc => acc
  | c :: cs, acc => digitsToNat cs (acc * 10 + (c.toNat - 48))

/-- Scan a JSON natural-number literal (a digit run, no redundant leading
zero), returning its value and the rest of the input. -/
def parseNat (l : List Char) : Option (Nat × List Char) :=
  match l.span Char.isDigit with
  | (ds, rest) =>
    if ds = [] then none
    else if ds.length > 1 ∧ ds.head? = some '0' then none
    else some (digitsToNat ds 0, rest)

mutual

/-- Recursive-descent JSON value scanner, fuelled by the input length
(each recursion step consumes at least one character). -/
def parseVal : Nat → List Char → Option (Json × List Char)
  | 0, _ => none
  | fuel + 1, l =>
    match skipWs l with
    | [] => none
    | 'n' :: 'u' :: 'l' :: 'l' :: rest => some (.null, rest)
    | 't' :: 'r' :: 'u' :: 'e' :: rest => some (.bool true, rest)
    | 'f' :: 'a' :: 'l' :: 's' :: 'e' :: rest => some (.bool false, rest)
    | '"' :: rest =>
      (parseStrChars (rest.length + 1) rest).map (fun p => (.str (String.mk p.1), p.2))
    | '[' :: rest =>
      match skipWs rest with
      | ']' :: r2 => some (.arr [], r2)
      | r => (parseElems fuel r).map (fun p => (.arr p.1, p.2))
    | '{' :: rest =>
      match skipWs rest with
      | '}' :: r2 => some (.obj [], r2)
      | r => (parseFields fuel r).map (fun p => (.obj p.1, p.2))
    | '-' :: rest => (parseNat rest).map (fun p => (.num (-(p.1 : Int)), p.2))
    | c :: rest =>
      if c.isDigit then (parseNat (c :: rest)).map (fun p => (.num (p.1 : Int), p.2))
      else none

/-- Scan the comma-separated elements of a non-empty JSON array, up to and
including the closing bracket. -/
def parseElems : Nat → List Char → Option (List Json × List Char)
  | 0, _ => none
  | fuel + 1, l =>
    match parseVal fuel l with
    | none => none
    | some (j, r) =>
      match skipWs r with
      | ',' :: r2 => (parseElems fuel r2).map (fun p => (j :: p.1, p.2))
      | ']' :: r2 => some ([j], r2)
      | _ => none

/-- Scan the comma-separated `"key": value` fields of a non-empty JSON
object, up to and including the closing brace. -/
def parseFields : Nat → List Char → Option (List (String × Json) × List Char)
  | 0, _ => none
  | fuel + 1, l =>
    match skipWs l with
    | '"' :: rest =>
      match parseStrChars (rest.length + 1) rest with
      | none => none
      | some (k, r) =>
        match skipWs r with
        | ':' :: r2 =>
          match parseVal fuel r2 with
          | none => none
          | some (v, r3) =>
            match skipWs r3 with
            | ',' :: r4 => (parseFields fuel r4).map (fun p => ((String.mk k, v) :: p.1, p.2))
            | '}' :: r4 => some ([(String.mk k, v)], r4)
            | _ => none
        | _ => none
    | _ => none

end

/-- Model of `json.loads` (hence of `response.json()`): parse the whole
body, requiring only trailing whitespace after the value.  `none` models a
raised `JSONDecodeError`; in particular the empty body does not parse. -/
def parseJson (s : String) : Option Json :=
  match parseVal (s.length + 1) s.data with
  | some (j, rest) => if skipWs rest = [] then some j else none
  | none => none

example : parseJson "" = none := rfl
example : parseJson "not json" = none := rfl
example : parseJson "\x7b\"detail\": \"nope\"\x7d" = some (.obj [("detail", .str "nope")]) := rfl
example : parseJson "\x7b\x7d" = some (.obj []) := rfl
example : parseJson "[1, -2]" = some (.arr [.num 1, .num (-2)]) := rfl
example : parseJson "null" = some .null := rfl
example : parseJson " \x7b\"a\": \x7b\"b\": [true, false]\x7d\x7d " =
    some (.obj [("a", .obj [("b", .arr [.bool true, .bool false])])]) := rfl

/-- A completed HTTP exchange as seen by the client: the response status
code and the raw body text (`response.status_code`, `response.text`). -/
structure HttpResponse where
  status_code : Nat
  body : String
deriving Repr

/-- Outcome of `self._session.request(method, url, **kwargs)`: either a
completed response, or a raised `requests.exceptions.RequestException`
carrying its description string `str(e)`. -/
inductive TransportResult where
  | success (resp : HttpResponse) : TransportResult
  | failure (msg : String) : TransportResult
deriving Repr

/-- Outcome of running a client method: a normal return, a raised
`RapidWireAPIError` (with its `status_code` and dynamically-typed
`detail`), or any other uncaught Python exception (`TypeError`,
`AttributeError`, `KeyError`), identified by a message string. -/
inductive PyOutcome (α : Type) where
  | ok (val : α) : PyOutcome α
  | apiError (status_code : Nat) (detail : Json) : PyOutcome α
  | pyError (msg : String) : PyOutcome α
deriving Repr

/-- Propagation of raised exceptions through sequential Python code. -/
def PyOutcome.bind {α β : Type} : PyOutcome α → (α → PyOutcome β) → PyOutcome β
  | .ok a, f => f a
  | .apiError s d, _ => .apiError s d
  | .pyError m, _ => .pyError m

/-- Model of `requests.Response.ok`: true unless the status code is in the
client-error or server-error range (`raise_for_status` raises exactly for
`400 <= status_code < 600`). -/
def respOk (status : Nat) : Bool :=
  if 400 ≤ status ∧ status < 600 then false else true

/-- Description string of the `JSONDecodeError` raised by
`response.json()` on an undecodable body.  The exact text is produced by
the json library; it is modelled as a function of the body, and no theorem
depends on its contents. -/
def jsonDecodeMsg (body : String) : String :=
  "Expecting value while decoding: " ++ body

/-- Error-normalization path of `_request` for a non-ok response
(`src/rapidwire.py` lines 180-186):

    error_detail = "Unknown error"
    try:
        error_detail = response.json().get("detail", error_detail)
    except requests.exceptions.JSONDecodeError:
        error_detail = response.text
    raise RapidWireAPIError(response.status_code, error_detail)

If the body decodes to a JSON object, `.get` yields its `detail` field or
the literal `"Unknown error"`; if the body decodes to a non-object value
(including `null`), `.get` raises an uncaught `AttributeError`; if the
body does not decode (the empty body included), the raw body text is used. -/
def errorNormalize (resp : HttpResponse) : PyOutcome Json :=
  match parseJson resp.body with
  | some (.obj fs) => .apiError resp.status_code ((dictGet fs "detail").getD (.str "Unknown error"))
  | some _ => .pyError "AttributeError: object has no attribute get"
  | none => .apiError resp.status_code (.str resp.body)

/-- Model of `RapidWireClient._request` given the transport outcome `t` of
`self._session.request` (lines 176-193).  A raised `RequestException` —
whether from the session call itself or the `JSONDecodeError` of
`response.json()` on an ok response (a `RequestException` subclass) — is
turned into `RapidWireAPIError(500, f"Request failed: {e}")`.  The
`RapidWireAPIError` raised on a non-ok response is not a
`RequestException` and propagates unchanged.  A 204 response returns
Python `None` (`Json.null`) without reading the body. -/
def _request (t : TransportResult) : PyOutcome Json :=
  match t with
  | .failure msg => .apiError 500 (.str ("Request failed: " ++ msg))
  | .success resp =>
    if respOk resp.status_code then
      if resp.status_code = 204 then .ok .null
      else
        match parseJson resp.body with
        | some j => .ok j
        | none => .apiError 500 (.str ("Request failed: " ++ jsonDecodeMsg resp.body))
    else errorNormalize resp

example : _request (.success ⟨404, "\x7b\"detail\": \"nope\"\x7d"⟩) = .apiError 404 (.str "nope") := rfl
example : _request (.success ⟨404, ""⟩) = .apiError 404 (.str "") := rfl
example : _request (.success ⟨500, "oops"⟩) = .apiError 500 (.str "oops") := rfl
example : _request (.success ⟨404, "\x7b\x7d"⟩) = .apiError 404 (.str "Unknown error") := rfl
example : _request (.success ⟨204, "ignored"⟩) = .ok .null := rfl
example : _request (.failure "refused") = .apiError 500 (.str ("Request failed: refused")) := rfl

/-- Python truthiness of a JSON-derived value (`if not x`). -/
def pyFalsy : Json → Bool
  | .null => true
  | .bool b => !b
  | .num n => n == 0
  | .str s => s == ""
  | .arr es => es.isEmpty
  | .obj fs => fs.isEmpty

/-- Python `str()` of a JSON-derived value, as interpolated into f-strings.
Scalars are rendered exactly; composite values are rendered through the
embedding's `Repr` as a stand-in for Python `repr`, and no theorem depends
on that rendering. -/
def pyStr (j : Json) : String :=
  match j with
  | .str s => s
  | .num n => toString n
  | .null => "None"
  | .bool true => "True"
  | .bool false => "False"
  | other => reprStr other

/-- Python `str.upper()` on one character, restricted to the ASCII case
mapping (the symbols this API handles are ASCII). -/
def pyUpperChar (c : Char) : Char :=
  if 'a' ≤ c ∧ c ≤ 'z' then Char.ofNat (c.toNat - 32) else c

/-- Python `str.upper()` on a string: `symbol.upper()`, the normalization
every endpoint wrapper applies to a symbol before submission. -/
def pyUpper (s : String) : String :=
  String.mk (s.data.map pyUpperChar)

example : pyUpper "aCmE" = "ACME" := rfl
example : pyUpper "usd_2" = "USD_2" := rfl

/-- Keyword-argument admissibility of a Python call `T(**data)`: every key
of `data` must name a declared parameter, else `TypeError: unexpected
keyword argument`.  Dataclasses generate `__init__` from the field list
and perform no runtime type checking on the values. -/
def kwargsOk (allowed : List String) (fs : List (String × Json)) : Bool :=
  fs.all (fun kv => allowed.contains kv.1)

/-- The `SuccessResponse` dataclass.  Field values are stored exactly as
passed: Python dataclasses do not check or coerce types, so each field
holds an arbitrary JSON-derived value. -/
structure SuccessResponse where
  message : Json
  details : Json
deriving Repr

/-- The `Balance` dataclass (`currencies`, `stocks`). -/
structure Balance where
  currencies : Json
  stocks : Json
deriving Repr

/-- The `CurrencyInfo` dataclass (`id`, `symbol`, `name`, `supply`,
`issuer_id`, `description`).  All six parameters are required: `Optional`
annotations carry no default value. -/
structure CurrencyInfo where
  id : Json
  symbol : Json
  name : Json
  supply : Json
  issuer_id : Json
  description : Json
deriving Repr

/-- The `OrderbookEntry` dataclass (`price`, `amount`). -/
structure OrderbookEntry where
  price : Json
  amount : Json
deriving Repr

/-- The `Orderbook` dataclass (`stock_symbol`, `orders`), whose `orders`
field is assigned the already-hydrated entry list. -/
structure Orderbook where
  stock_symbol : Json
  orders : List OrderbookEntry
deriving Repr

/-- `SuccessResponse(**data)`: `message` is required, `details` defaults
to `None`, unknown keys raise `TypeError`. -/
def mkSuccessResponse (fs : List (String × Json)) : Except String SuccessResponse :=
  if ¬ kwargsOk ["message", "details"] fs then
    .error "TypeError: unexpected keyword argument"
  else
    match dictGet fs "message" with
    | some m => .ok ⟨m, (dictGet fs "details").getD .null⟩
    | none => .error "TypeError: missing required argument message"

/-- `Balance(**data)`: both fields required, unknown keys raise
`TypeError`. -/
def mkBalance (fs : List (String × Json)) : Except String Balance :=
  if ¬ kwargsOk ["currencies", "stocks"] fs then
    .error "TypeError: unexpected keyword argument"
  else
    match dictGet fs "currencies", dictGet fs "stocks" with
    | some c, some s => .ok ⟨c, s⟩
    | _, _ => .error "TypeError: missing required argument"

/-- `CurrencyInfo(**data)`: all six fields required, unknown keys raise
`TypeError`, values stored without any type check. -/
def mkCurrencyInfo (fs : List (String × Json)) : Except String CurrencyInfo :=
  if ¬ kwargsOk ["id", "symbol", "name", "supply", "issuer_id", "description"] fs then
    .error "TypeError: unexpected keyword argument"
  else
    match dictGet fs "id", dictGet fs "symbol", dictGet fs "name",
          dictGet fs "supply", dictGet fs "issuer_id", dictGet fs "description" with
    | some a, some b, some c, some d, some e, some f => .ok ⟨a, b, c, d, e, f⟩
    | _, _, _, _, _, _ => .error "TypeError: missing required argument"

/-- `OrderbookEntry(**entry)` for one element of the `orders` array. -/
def mkOrderbookEntry (j : Json) : Except String OrderbookEntry :=
  match j with
  | .obj fs =>
    if ¬ kwargsOk ["price", "amount"] fs then
      .error "TypeError: unexpected keyword argument"
    else
      match dictGet fs "price", dictGet fs "amount" with
      | some p, some a => .ok ⟨p, a⟩
      | _, _ => .error "TypeError: missing required argument"
  | _ => .error "TypeError: argument after ** must be a mapping"

/-- The list comprehension `[OrderbookEntry(**entry) for entry in orders]`
over an actual list: left to right, first failing element raises. -/
def hydrateEntries : List Json → Except String (List OrderbookEntry)
  | [] => .ok []
  | e :: rest =>
    match mkOrderbookEntry e with
    | .ok oe =>
      match hydrateEntries rest with
      | .ok l => .ok (oe :: l)
      | .error m => .error m
    | .error m => .error m

/-- The same comprehension over an arbitrary JSON-derived value of
`data["orders"]`: a list hydrates elementwise; iterating a non-empty
string or dict yields non-mapping elements, so the first `**` unpacking
raises `TypeError` (an empty string or dict yields no elements); scalars
are not iterable. -/
def iterEntries : Json → Except String (List OrderbookEntry)
  | .arr es => hydrateEntries es
  | .str s => if s = "" then .ok [] else .error "TypeError: argument after ** must be a mapping"
  | .obj fs => if fs.isEmpty then .ok [] else .error "TypeError: argument after ** must be a mapping"
  | _ => .error "TypeError: object is not iterable"

/-- Lift a dataclass call `T(**data)` over the JSON value `data` returned
by `_request`: a non-object value is not usable as `**` kwargs. -/
def hydrateObj {α : Type} (mk : List (String × Json) → Except String α) : Json → PyOutcome α
  | .obj fs =>
    match mk fs with
    | .ok a => .ok a
    | .error m => .pyError m
  | _ => .pyError "TypeError: argument after ** must be a mapping"

/-- `get_version` response handling: `SuccessResponse(**data)` on the
value returned by `_request("GET", "/version")`, given the transport
outcome `t` of that call. -/
def get_version (t : TransportResult) : PyOutcome SuccessResponse :=
  (_request t).bind (hydrateObj mkSuccessResponse)

/-- `get_balance` response handling: `Balance(**data)`. -/
def get_balance (t : TransportResult) : PyOutcome Balance :=
  (_request t).bind (hydrateObj mkBalance)

/-- `get_currency_info` response handling: `CurrencyInfo(**data)`. -/
def get_currency_info (t : TransportResult) : PyOutcome CurrencyInfo :=
  (_request t).bind (hydrateObj mkCurrencyInfo)

/-- `Orderbook(**data)` after `data["orders"]` has been replaced by the
hydrated entry list. -/
def mkOrderbook (fs : List (String × Json)) (entries : List OrderbookEntry) : PyOutcome Orderbook :=
  if ¬ kwargsOk ["stock_symbol", "orders"] fs then
    .pyError "TypeError: unexpected keyword argument"
  else
    match dictGet fs "stock_symbol" with
    | some s => .ok ⟨s, entries⟩
    | none => .pyError "TypeError: missing required argument stock_symbol"

/-- `get_stock_orderbook` response handling (lines 257-261): read
`data["orders"]` (a `KeyError` if absent, a `TypeError` if `data` is not a
dict), hydrate each entry in source order, then build `Orderbook(**data)`. -/
def get_stock_orderbook (t : TransportResult) : PyOutcome Orderbook :=
  (_request t).bind fun j =>
    match j with
    | .obj fs =>
      match dictGet fs "orders" with
      | some ov =>
        match iterEntries ov with
        | .ok entries => mkOrderbook fs entries
        | .error m => .pyError m
      | none => .pyError "KeyError: orders"
    | _ => .pyError "TypeError: value is not subscriptable"

/-- A request as issued by the client: HTTP method, path appended to the
base URL, query parameters (`params=`), and JSON body (`json=`). -/
structure HttpRequest where
  method : String
  path : String
  params : List (String × Json)
  jsonBody : Option Json
deriving Repr

/-- Request built by `get_currency_info(symbol)`:
`GET f"/currency/{symbol.upper()}"`. -/
def get_currency_info_req (symbol : String) : HttpRequest :=
  ⟨"GET", "/currency/" ++ pyUpper symbol, [], none⟩

/-- Request built by `get_stock_info(symbol)`:
`GET f"/stock/{symbol.upper()}"`. -/
def get_stock_info_req (symbol : String) : HttpRequest :=
  ⟨"GET", "/stock/" ++ pyUpper symbol, [], none⟩

/-- Request built by `get_stock_orderbook(symbol)`:
`GET f"/stock/{symbol.upper()}/orderbook"`. -/
def get_stock_orderbook_req (symbol : String) : HttpRequest :=
  ⟨"GET", "/stock/" ++ pyUpper symbol ++ "/orderbook", [], none⟩

/-- Request built by `get_liquidity_info(symbol)`:
`GET f"/market/currency/liquidity/{symbol.upper()}"`. -/
def get_liquidity_info_req (symbol : String) : HttpRequest :=
  ⟨"GET", "/market/currency/liquidity/" ++ pyUpper symbol, [], none⟩

/-- Request built by `transfer_currency(recipient_id, asset_symbol,
amount)`: `POST /currency/transfer` with the payload of lines 238-242. -/
def transfer_currency_req (recipient_id : Int) (asset_symbol : String) (amount : Int) :
    HttpRequest :=
  ⟨"POST", "/currency/transfer", [],
    some (.obj [("recipient_id", .num recipient_id),
                ("asset_symbol", .str (pyUpper asset_symbol)),
                ("amount", .num amount)])⟩

/-- Request built by `transfer_stock`: `POST /stock/transfer`, same
payload shape as `transfer_currency`. -/
def transfer_stock_req (recipient_id : Int) (asset_symbol : String) (amount : Int) :
    HttpRequest :=
  ⟨"POST", "/stock/transfer", [],
    some (.obj [("recipient_id", .num recipient_id),
                ("asset_symbol", .str (pyUpper asset_symbol)),
                ("amount", .num amount)])⟩

/-- Request built by `create_sell_order(stock_symbol, price, amount)`. -/
def create_sell_order_req (stock_symbol : String) (price : Int) (amount : Int) : HttpRequest :=
  ⟨"POST", "/market/stock/sell-order", [],
    some (.obj [("stock_symbol", .str (pyUpper stock_symbol)),
                ("price", .num price),
                ("amount", .num amount)])⟩

/-- Request built by `market_buy_stock(stock_symbol, amount)`. -/
def market_buy_stock_req (stock_symbol : String) (amount : Int) : HttpRequest :=
  ⟨"POST", "/market/stock/market-buy", [],
    some (.obj [("stock_symbol", .str (pyUpper stock_symbol)),
                ("amount", .num amount)])⟩

/-- Request built by `buy_currency(currency_symbol, amount_in)`. -/
def buy_currency_req (currency_symbol : String) (amount_in : Int) : HttpRequest :=
  ⟨"POST", "/market/currency/buy", [],
    some (.obj [("currency_symbol", .str (pyUpper currency_symbol)),
                ("amount", .num amount_in)])⟩

/-- Request built by `sell_currency(currency_symbol, amount_in)`. -/
def sell_currency_req (currency_symbol : String) (amount_in : Int) : HttpRequest :=
  ⟨"POST", "/market/currency/sell", [],
    some (.obj [("currency_symbol", .str (pyUpper currency_symbol)),
                ("amount", .num amount_in)])⟩

/-- The client's own fixed version string. -/
def CLIENT_VERSION : String := "1.0.0"

/-- Leading component before the first `.` of a version string:
`s.split(".")[0]` (for a string without a dot this is the whole string,
and for the empty string it is empty). -/
def majorOf (s : String) : String := String.mk (s.data.takeWhile (fun c => c ≠ '.'))

/-- Warning printed when the version response carries no usable version
string. -/
def unknownVersionWarning : String :=
  "Warning: サーバーのバージョンを特定できませんでした。互換性は保証されません。"

/-- Warning printed on a major-version mismatch, naming both full version
strings (f-string of lines 152-153). -/
def mismatchWarning (client server : String) : String :=
  "Warning: クライアントバージョン (" ++ client ++ ") とサーバーバージョン (" ++ server ++
    ") の メジャーバージョンが一致しません。機能が正常に動作しない可能性があります。"

/-- Python `str(e)` of a `RapidWireAPIError`: the message
`f"API Error {status_code}: {detail}"` set by its constructor. -/
def apiErrorStr (status : Nat) (detail : Json) : String :=
  "API Error " ++ toString status ++ ": " ++ pyStr detail

/-- Warning printed when the version call raises `RapidWireAPIError`. -/
def connectWarning (status : Nat) (detail : Json) : String :=
  "Warning: バージョン確認のためにサーバーへの接続に失敗しました: " ++ apiErrorStr status detail ++
    "。 クライアントに互換性がない可能性があります。"

/-- Model of `RapidWireClient._check_version` given the transport outcome
`t` of the `/version` call.  Returns the printed warnings on normal
completion, or the message of an uncaught exception.  Only
`RapidWireAPIError` is caught (producing `connectWarning`); the
`AttributeError` raised by `None.get("version")` when the response has no
`details` mapping, by `.get` on a non-dict `details`, or by `.split` on a
truthy non-string version value, propagates — as does a `TypeError` from
`SuccessResponse(**data)` itself. -/
def check_version (t : TransportResult) : Except String (List String) :=
  match get_version t with
  | .apiError s d => .ok [connectWarning s d]
  | .pyError m => .error m
  | .ok sr =>
    match sr.details with
    | .obj fs =>
      let v := (dictGet fs "version").getD .null
      if pyFalsy v then .ok [unknownVersionWarning]
      else
        match v with
        | .str s =>
          if majorOf CLIENT_VERSION ≠ majorOf s then .ok [mismatchWarning CLIENT_VERSION s]
          else .ok []
        | _ => .error "AttributeError: object has no attribute split"
    | .null => .error "AttributeError: NoneType object has no attribute get"
    | _ => .error "AttributeError: object has no attribute get"

/-- Model of `RapidWireClient.__init__(api_key, base_url)` up to its
observable control flow: an empty API key raises `ValueError` before any
network activity; otherwise `_check_version()` runs on the outcome `t` of
the `/version` call and the constructor completes exactly when it does,
with the warnings it printed. -/
def clientInit (api_key : String) (t : TransportResult) : Except String (List String) :=
  if api_key = "" then .error "ValueError: APIキーは必須です。"
  else check_version t

example :
    check_version (.success ⟨200, "\x7b\"message\": \"ok\", \"details\": \x7b\"version\": \"1.2.3\"\x7d\x7d"⟩) =
      .ok [] := rfl
example :
    check_version (.success ⟨200, "\x7b\"message\": \"ok\", \"details\": \x7b\"version\": \"2.3.1\"\x7d\x7d"⟩) =
      .ok [mismatchWarning "1.0.0" "2.3.1"] := rfl
example :
    check_version (.success ⟨200, "\x7b\"message\": \"ok\", \"details\": \x7b\x7d\x7d"⟩) =
      .ok [unknownVersionWarning] := rfl
example :
    check_version (.success ⟨200, "\x7b\"message\": \"ok\"\x7d"⟩) =
      .error "AttributeError: NoneType object has no attribute get" := rfl
example :
    check_version (.failure "refused") =
      .ok [connectWarning 500 (.str "Request failed: refused")] := rfl

/-! ## Helper lemmas -/

theorem pyUpperChar_toNat_of_lower (c : Char) (h1 : 'a' ≤ c) (h2 : c ≤ 'z') :
    (pyUpperChar c).toNat = c.toNat - 32 := by
  have hlo : 97 ≤ c.toNat := h1
  have hhi : c.toNat ≤ 122 := h2
  unfold pyUpperChar
  rw [if_pos ⟨h1, h2⟩]
  have hv : (c.toNat - 32).isValidChar := by
    left
    omega
  unfold Char.ofNat
  rw [dif_pos hv]
  rfl

theorem pyUpperChar_eq_of_not_lower (c : Char) (h : ¬ (97 ≤ c.toNat ∧ c.toNat ≤ 122)) :
    pyUpperChar c = c := by
  unfold pyUpperChar
  rw [if_neg]
  intro hc
  exact h ⟨hc.1, hc.2⟩

theorem pyUpperChar_idem (c : Char) : pyUpperChar (pyUpperChar c) = pyUpperChar c := by
  by_cases h : 'a' ≤ c ∧ c ≤ 'z'
  · have ht := pyUpperChar_toNat_of_lower c h.1 h.2
    have hlo : 97 ≤ c.toNat := h.1
    have hhi : c.toNat ≤ 122 := h.2
    apply pyUpperChar_eq_of_not_lower
    rw [ht]
    omega
  · have hc : ¬ (97 ≤ c.toNat ∧ c.toNat ≤ 122) := by
      intro hn
      exact h ⟨hn.1, hn.2⟩
    rw [pyUpperChar_eq_of_not_lower c hc, pyUpperChar_eq_of_not_lower c hc]

theorem pyUpper_idem (s : String) : pyUpper (pyUpper s) = pyUpper s := by
  unfold pyUpper
  simp only [List.map_map]
  congr 1
  apply List.map_congr_left
  intro c _
  exact pyUpperChar_idem c

/-! ## Claims -/

/-- C5: for every call where the underlying transport fails, `_request`
raises an `ApiError` whose status code is the fixed sentinel 500 and whose
detail is the non-empty string `f"Request failed: {e}"` derived from the
underlying failure description. -/
theorem C5_transport_failure (msg : String) :
    _request (.failure msg) = .apiError 500 (.str ("Request failed: " ++ msg)) ∧
      "Request failed: " ++ msg ≠ "" := by
  constructor
  · rfl
  · intro h
    have hl := congrArg String.length h
    simp [String.length_append] at hl
    exact absurd hl.1 (by decide)

/-- C6: for every response with HTTP status 204, `_request` returns the
explicit no-content marker (Python `None`, i.e. `Json.null`) regardless of
the body — it never parses the body, never fails, and the marker is
distinct from an empty object. -/
theorem C6_no_content (body : String) :
    _request (.success ⟨204, body⟩) = .ok .null ∧
      (PyOutcome.ok Json.null : PyOutcome Json) ≠ .ok (.obj []) := by
  constructor
  · simp [_request, respOk]
  · intro h
    cases h

/-- C10: for every response with a 2xx non-204 status whose body is not
valid JSON, the `JSONDecodeError` of `response.json()` (a
`RequestException` subclass) is caught by `_request` and re-raised as the
uniform `ApiError` with status 500 and a detail derived from the parse
failure, rather than returning a value or leaking the raw exception. -/
theorem C10_malformed_success_body (status : Nat) (body : String)
    (h2xx : 200 ≤ status) (h2xx2 : status < 300) (h204 : status ≠ 204)
    (hparse : parseJson body = none) :
    _request (.success ⟨status, body⟩) =
      .apiError 500 (.str ("Request failed: " ++ jsonDecodeMsg body)) := by
  have hok : respOk status = true := by
    simp only [respOk, ite_eq_right_iff]
    intro hc
    omega
  simp [_request, hok, h204, hparse]

/-- C10 witness: a 200 response with the undecodable body `"oops"`. -/
theorem C10_witness :
    _request (.success ⟨200, "oops"⟩) =
      .apiError 500 (.str ("Request failed: " ++ jsonDecodeMsg "oops")) :=
  C10_malformed_success_body 200 "oops" (by decide) (by decide) (by decide) rfl

/-- C9: symbol normalization before submission is Python `upper`: it sends
every lowercase ASCII letter to its uppercase counterpart (code point
minus 32), it is idempotent, and every endpoint operation taking a symbol
applies it to the symbol before it leaves the client — in the URL path for
the GET endpoints and in the request body for the POST endpoints. -/
theorem C9_normalize_upper (s : String) (c : Char) (r a p : Int)
    (h1 : 'a' ≤ c) (h2 : c ≤ 'z') :
    (pyUpperChar c).toNat = c.toNat - 32 ∧
    pyUpper (pyUpper s) = pyUpper s ∧
    (get_currency_info_req s).path = "/currency/" ++ pyUpper s ∧
    (get_stock_info_req s).path = "/stock/" ++ pyUpper s ∧
    (get_stock_orderbook_req s).path = "/stock/" ++ pyUpper s ++ "/orderbook" ∧
    (get_liquidity_info_req s).path = "/market/currency/liquidity/" ++ pyUpper s ∧
    (transfer_currency_req r s a).jsonBody =
      some (.obj [("recipient_id", .num r), ("asset_symbol", .str (pyUpper s)),
                  ("amount", .num a)]) ∧
    (transfer_stock_req r s a).jsonBody =
      some (.obj [("recipient_id", .num r), ("asset_symbol", .str (pyUpper s)),
                  ("amount", .num a)]) ∧
    (create_sell_order_req s p a).jsonBody =
      some (.obj [("stock_symbol", .str (pyUpper s)), ("price", .num p),
                  ("amount", .num a)]) ∧
    (market_buy_stock_req s a).jsonBody =
      some (.obj [("stock_symbol", .str (pyUpper s)), ("amount", .num a)]) ∧
    (buy_currency_req s a).jsonBody =
      some (.obj [("currency_symbol", .str (pyUpper s)), ("amount", .num a)]) ∧
    (sell_currency_req s a).jsonBody =
      some (.obj [("currency_symbol", .str (pyUpper s)), ("amount", .num a)]) :=
  ⟨pyUpperChar_toNat_of_lower c h1 h2, pyUpper_idem s,
    rfl, rfl, rfl, rfl, rfl, rfl, rfl, rfl, rfl, rfl⟩

/-- C9 witness: the normalization facts instantiated at the symbol
`"aCme"`, the letter `a`, and concrete integer arguments. -/
theorem C9_witness :
    (pyUpperChar 'a').toNat = 'a'.toNat - 32 ∧
    pyUpper (pyUpper "aCme") = pyUpper "aCme" ∧
    (get_currency_info_req "aCme").path = "/currency/" ++ pyUpper "aCme" ∧
    (get_stock_info_req "aCme").path = "/stock/" ++ pyUpper "aCme" ∧
    (get_stock_orderbook_req "aCme").path = "/stock/" ++ pyUpper "aCme" ++ "/orderbook" ∧
    (get_liquidity_info_req "aCme").path = "/market/currency/liquidity/" ++ pyUpper "aCme" ∧
    (transfer_currency_req 7 "aCme" 3).jsonBody =
      some (.obj [("recipient_id", .num 7), ("asset_symbol", .str (pyUpper "aCme")),
                  ("amount", .num 3)]) ∧
    (transfer_stock_req 7 "aCme" 3).jsonBody =
      some (.obj [("recipient_id", .num 7), ("asset_symbol", .str (pyUpper "aCme")),
                  ("amount", .num 3)]) ∧
    (create_sell_order_req "aCme" 11 3).jsonBody =
      some (.obj [("stock_symbol", .str (pyUpper "aCme")), ("price", .num 11),
                  ("amount", .num 3)]) ∧
    (market_buy_stock_req "aCme" 3).jsonBody =
      some (.obj [("stock_symbol", .str (pyUpper "aCme")), ("amount", .num 3)]) ∧
    (buy_currency_req "aCme" 3).jsonBody =
      some (.obj [("currency_symbol", .str (pyUpper "aCme")), ("amount", .num 3)]) ∧
    (sell_currency_req "aCme" 3).jsonBody =
      some (.obj [("currency_symbol", .str (pyUpper "aCme")), ("amount", .num 3)]) :=
  C9_normalize_upper "aCme" 'a' 7 3 11 (by decide) (by decide)

/-- C1 counterexample: for the non-success response with status 404 and an
EMPTY body, the raised error's detail is the empty raw body text, not the
literal `"Unknown error"` the claim requires (the empty body does not
decode as JSON, so the `except` branch assigns `response.text`). -/
theorem C1_counterexample :
    _request (.success ⟨404, ""⟩) = .apiError 404 (.str "") ∧
      _request (.success ⟨404, ""⟩) ≠ .apiError 404 (.str "Unknown error") := by
  refine ⟨rfl, ?_⟩
  intro h
  rw [show _request (.success ⟨404, ""⟩) = .apiError 404 (.str "") from rfl] at h
  injection h with h1 h2
  injection h2 with h3
  exact absurd h3 (by decide)

/-- C1 (amended): for every non-success HTTP response reaching the
error-normalization path of `_request`: if the body decodes as a JSON
object containing a `detail` field, the raised error's detail is that
field's value; if the body does not decode as JSON — the empty body
included — the detail is the raw body text; and the detail is the literal
`"Unknown error"` exactly when the body decodes as a JSON object without a
`detail` field.  In every case the error carries the response's original
status code. -/
theorem C1_amended_error_detail (status : Nat) (body : String)
    (hok : respOk status = false) :
    (∀ fs d, parseJson body = some (.obj fs) → dictGet fs "detail" = some d →
        _request (.success ⟨status, body⟩) = .apiError status d) ∧
    (parseJson body = none →
        _request (.success ⟨status, body⟩) = .apiError status (.str body)) ∧
    (∀ fs, parseJson body = some (.obj fs) → dictGet fs "detail" = none →
        _request (.success ⟨status, body⟩) = .apiError status (.str "Unknown error")) := by
  refine ⟨?_, ?_, ?_⟩
  · intro fs d hp hd
    simp [_request, hok, errorNormalize, hp, hd]
  · intro hp
    simp [_request, hok, errorNormalize, hp]
  · intro fs hp hd
    simp [_request, hok, errorNormalize, hp, hd]

/-- C1 witness: the three amended branches at concrete non-success
responses (a JSON body with `detail`, a non-JSON body, and a JSON object
body without `detail`). -/
theorem C1_witness :
    _request (.success ⟨404, "\x7b\"detail\": \"nope\"\x7d"⟩) = .apiError 404 (.str "nope") ∧
    _request (.success ⟨401, "oops"⟩) = .apiError 401 (.str "oops") ∧
    _request (.success ⟨503, "\x7b\x7d"⟩) = .apiError 503 (.str "Unknown error") :=
  ⟨(C1_amended_error_detail 404 "\x7b\"detail\": \"nope\"\x7d" rfl).1
      [("detail", .str "nope")] (.str "nope") rfl rfl,
   (C1_amended_error_detail 401 "oops" rfl).2.1 rfl,
   (C1_amended_error_detail 503 "\x7b\x7d" rfl).2.2 [] rfl rfl⟩

/-- Benign shapes of the `version` value inside the `details` mapping: a
string (`.split` works) or a falsy value (the `if not server_version_str`
guard fires).  A truthy non-string value would raise `AttributeError` at
`.split`. -/
def benignVersionVal : Json → Bool
  | .str _ => true
  | v => pyFalsy v

/-- C2 counterexample: a `/version` call that succeeds with
`{"message": "ok"}` — a success outcome whose version string is missing
because `details` defaults to `None` — makes `_check_version` evaluate
`None.get("version")`, and the resulting `AttributeError` is not caught:
construction raises instead of completing with a warning. -/
theorem C2_counterexample :
    clientInit "key" (.success ⟨200, "\x7b\"message\": \"ok\"\x7d"⟩) =
      .error "AttributeError: NoneType object has no attribute get" := rfl

/-- C2 (amended): the version check catches `RapidWireAPIError` locally,
so a transport failure during the version call is never fatal: the
constructor completes with exactly the connection warning.  A success
outcome whose parsed response carries a `details` mapping also completes
(with a warning or silently) provided the `version` entry is absent, falsy
or a string.  However — contrary to the claim — a success outcome lacking
the `details` mapping (the response parses but `details` defaults to
`None`) raises an uncaught `AttributeError` and construction fails
(`C2_counterexample`). -/
theorem C2_amended_version_check (key msg : String) (t : TransportResult)
    (sr : SuccessResponse) (fs : List (String × Json)) (hkey : key ≠ "")
    (h1 : get_version t = .ok sr) (h2 : sr.details = .obj fs)
    (h3 : benignVersionVal ((dictGet fs "version").getD .null) = true) :
    clientInit key (.failure msg) =
      .ok [connectWarning 500 (.str ("Request failed: " ++ msg))] ∧
    ∃ ws, clientInit key t = .ok ws := by
  constructor
  · simp [clientInit, hkey, check_version, get_version, _request, PyOutcome.bind]
  · obtain ⟨m, det⟩ := sr
    have h2' : det = Json.obj fs := h2
    subst h2'
    unfold clientInit check_version
    rw [if_neg hkey]
    simp only [h1]
    cases hb : pyFalsy ((dictGet fs "version").getD .null) with
    | true => exact ⟨[unknownVersionWarning], by simp [hb]⟩
    | false =>
      cases hv : (dictGet fs "version").getD .null with
      | str s =>
        by_cases hm : majorOf CLIENT_VERSION ≠ majorOf s
        · exact ⟨[mismatchWarning CLIENT_VERSION s], by simp [hb, hv, hm]⟩
        · exact ⟨[], by simp [hb, hv, hm]⟩
      | null => rw [hv] at hb; simp [pyFalsy] at hb
      | bool b =>
        rw [hv] at h3
        rw [hv] at hb
        simp [benignVersionVal] at h3
        rw [h3] at hb
        simp [pyFalsy] at hb
      | num n =>
        rw [hv] at h3 hb
        simp [benignVersionVal] at h3
        rw [hb] at h3
        cases h3
      | arr es =>
        rw [hv] at h3 hb
        simp [benignVersionVal] at h3
        rw [hb] at h3
        cases h3
      | obj gs =>
        rw [hv] at h3 hb
        simp [benignVersionVal] at h3
        rw [hb] at h3
        cases h3

/-- C2 witness: a transport failure and a benign success outcome, both
completing construction normally. -/
theorem C2_witness :
    clientInit "k" (.failure "refused") =
      .ok [connectWarning 500 (.str ("Request failed: refused"))] ∧
    ∃ ws, clientInit "k"
        (.success ⟨200, "\x7b\"message\": \"ok\", \"details\": \x7b\"version\": \"1.0.5\"\x7d\x7d"⟩) =
      .ok ws :=
  C2_amended_version_check "k" "refused"
    (.success ⟨200, "\x7b\"message\": \"ok\", \"details\": \x7b\"version\": \"1.0.5\"\x7d\x7d"⟩)
    ⟨.str "ok", .obj [("version", .str "1.0.5")]⟩ [("version", .str "1.0.5")]
    (by decide) rfl rfl rfl

/-- C3 counterexample: a currency-info response whose `id` field is a
string where an integer is expected does NOT fail — dataclass
construction performs no runtime type check, so `get_currency_info`
returns a record containing the mistyped value unchanged. -/
theorem C3_counterexample :
    get_currency_info (.success ⟨200,
        "\x7b\"id\": \"notanint\", \"symbol\": \"USD\", \"name\": \"Dollar\", \"supply\": 10, \"issuer_id\": null, \"description\": null\x7d"⟩) =
      .ok ⟨.str "notanint", .str "USD", .str "Dollar", .num 10, .null, .null⟩ := rfl

/-- C3 (amended): the mapping into a declared record shape neither checks
nor coerces field types: whenever the response object carries exactly the
declared keys, `get_currency_info` succeeds and stores each field's value
as-is, whatever its JSON type — a string where an integer is expected is
kept, not rejected and not cast.  The mapping fails only on missing or
unexpected field names. -/
theorem C3_amended_no_type_check (t : TransportResult) (fs : List (String × Json))
    (a b c d e f : Json)
    (h1 : _request t = .ok (.obj fs))
    (hkeys : kwargsOk ["id", "symbol", "name", "supply", "issuer_id", "description"] fs = true)
    (hid : dictGet fs "id" = some a) (hsym : dictGet fs "symbol" = some b)
    (hname : dictGet fs "name" = some c) (hsup : dictGet fs "supply" = some d)
    (hiss : dictGet fs "issuer_id" = some e) (hdesc : dictGet fs "description" = some f) :
    get_currency_info t = .ok ⟨a, b, c, d, e, f⟩ := by
  unfold get_currency_info
  rw [h1]
  simp [PyOutcome.bind, hydrateObj, mkCurrencyInfo, hkeys, hid, hsym, hname, hsup, hiss, hdesc]

/-- C3 witness: a response whose `supply` field is a string is mapped to a
record storing that string. -/
theorem C3_witness :
    get_currency_info (.success ⟨200,
        "\x7b\"id\": 1, \"symbol\": \"USD\", \"name\": \"Dollar\", \"supply\": \"lots\", \"issuer_id\": 2, \"description\": \"d\"\x7d"⟩) =
      .ok ⟨.num 1, .str "USD", .str "Dollar", .str "lots", .num 2, .str "d"⟩ :=
  C3_amended_no_type_check
    (.success ⟨200,
        "\x7b\"id\": 1, \"symbol\": \"USD\", \"name\": \"Dollar\", \"supply\": \"lots\", \"issuer_id\": 2, \"description\": \"d\"\x7d"⟩)
    [("id", .num 1), ("symbol", .str "USD"), ("name", .str "Dollar"),
     ("supply", .str "lots"), ("issuer_id", .num 2), ("description", .str "d")]
    (.num 1) (.str "USD") (.str "Dollar") (.str "lots") (.num 2) (.str "d")
    rfl rfl rfl rfl rfl rfl rfl rfl

/-- C4 counterexample: a balance response carrying the unknown extra field
`"extra"` is NOT ignored: `Balance(**data)` raises `TypeError` for the
unexpected keyword argument, so the mapping fails instead of succeeding. -/
theorem C4_counterexample :
    get_balance (.success ⟨200,
        "\x7b\"currencies\": \x7b\"USD\": 100\x7d, \"stocks\": \x7b\"ACME\": 5\x7d, \"extra\": 1\x7d"⟩) =
      .pyError "TypeError: unexpected keyword argument" := rfl

/-- C4 (amended): in the mapping of a raw JSON object into a flat record
shape, a missing required field makes the mapping fail rather than produce
a partially-populated record — but unknown extra fields are NOT ignored:
any key outside the declared field list also makes the mapping fail, with
`TypeError: unexpected keyword argument`. -/
theorem C4_amended_kwargs (fs gs hs : List (String × Json)) (k : String) (v : Json)
    (hmem : (k, v) ∈ fs) (hk : ¬ (k = "currencies" ∨ k = "stocks"))
    (hmiss : dictGet gs "stocks" = none)
    (hmiss2 : dictGet hs "id" = none) :
    mkBalance fs = .error "TypeError: unexpected keyword argument" ∧
    (∃ m, mkBalance gs = .error m) ∧
    (∃ m, mkCurrencyInfo hs = .error m) := by
  have hko : kwargsOk ["currencies", "stocks"] fs = false := by
    cases hT : kwargsOk ["currencies", "stocks"] fs with
    | false => rfl
    | true =>
      exfalso
      unfold kwargsOk at hT
      rw [List.all_eq_true] at hT
      have hkv := hT (k, v) hmem
      simp [List.contains] at hkv
      exact hk hkv
  refine ⟨?_, ?_, ?_⟩
  · simp [mkBalance, hko]
  · unfold mkBalance
    cases hc : kwargsOk ["currencies", "stocks"] gs with
    | false => exact ⟨"TypeError: unexpected keyword argument", by simp [hc]⟩
    | true =>
      cases hcur : dictGet gs "currencies" with
      | none => exact ⟨"TypeError: missing required argument", by simp [hc, hcur, hmiss]⟩
      | some c0 => exact ⟨"TypeError: missing required argument", by simp [hc, hcur, hmiss]⟩
  · unfold mkCurrencyInfo
    cases hc : kwargsOk ["id", "symbol", "name", "supply", "issuer_id", "description"] hs with
    | false => exact ⟨"TypeError: unexpected keyword argument", by simp [hc]⟩
    | true => exact ⟨"TypeError: missing required argument", by simp [hc, hmiss2]⟩

/-- C4 witness: an unknown extra key, a missing `stocks` field, and a
missing `id` field, each failing the mapping. -/
theorem C4_witness :
    mkBalance [("currencies", .obj []), ("stocks", .obj []), ("extra", .num 1)] =
      .error "TypeError: unexpected keyword argument" ∧
    (∃ m, mkBalance [("currencies", .obj [])] = .error m) ∧
    (∃ m, mkCurrencyInfo [("symbol", .str "USD")] = .error m) :=
  C4_amended_kwargs
    [("currencies", .obj []), ("stocks", .obj []), ("extra", .num 1)]
    [("currencies", .obj [])] [("symbol", .str "USD")] "extra" (.num 1)
    (List.Mem.tail _ (List.Mem.tail _ (List.Mem.head _)))
    (by decide) rfl rfl

theorem hydrateEntries_ok (es : List Json) (l : List OrderbookEntry)
    (h : hydrateEntries es = .ok l) :
    l.length = es.length ∧
      ∀ i (hi : i < es.length) (hl : i < l.length),
        mkOrderbookEntry (es.get ⟨i, hi⟩) = .ok (l.get ⟨i, hl⟩) := by
  induction es generalizing l with
  | nil =>
    unfold hydrateEntries at h
    cases h
    refine ⟨rfl, ?_⟩
    intro i hi hl
    simp at hi
  | cons e rest ih =>
    unfold hydrateEntries at h
    cases he : mkOrderbookEntry e with
    | error m =>
      simp only [he] at h
      cases h
    | ok oe =>
      simp only [he] at h
      cases hr : hydrateEntries rest with
      | error m =>
        simp only [hr] at h
        cases h
      | ok l2 =>
        simp only [hr] at h
        cases h
        obtain ⟨hlen, hget⟩ := ih l2 hr
        refine ⟨by simp [hlen], ?_⟩
        intro i hi hl
        cases i with
        | zero => simpa using he
        | succ n =>
          have hi2 : n < rest.length := by simpa using hi
          have hl2 : n < l2.length := by simpa using hl
          simpa using hget n hi2 hl2

/-- C7: for every successful orderbook response, `get_stock_orderbook`
hydrates each element of the `orders` array into an `OrderbookEntry`, and
the resulting `Orderbook.orders` sequence has exactly the length of the
source array with its `i`-th element the hydration of the `i`-th source
element — no re-sorting, no dropping, no reordering. -/
theorem C7_orderbook_order (t : TransportResult) (fs : List (String × Json))
    (es : List Json) (ob : Orderbook)
    (h1 : _request t = .ok (.obj fs))
    (h2 : dictGet fs "orders" = some (.arr es))
    (h3 : get_stock_orderbook t = .ok ob) :
    ob.orders.length = es.length ∧
      ∀ i (hi : i < es.length) (hl : i < ob.orders.length),
        mkOrderbookEntry (es.get ⟨i, hi⟩) = .ok (ob.orders.get ⟨i, hl⟩) := by
  unfold get_stock_orderbook at h3
  rw [h1] at h3
  simp only [PyOutcome.bind, h2, iterEntries] at h3
  cases hh : hydrateEntries es with
  | error m =>
    simp only [hh] at h3
    cases h3
  | ok entries =>
    simp only [hh] at h3
    unfold mkOrderbook at h3
    cases hc : kwargsOk ["stock_symbol", "orders"] fs with
    | false => simp [hc] at h3
    | true =>
      simp only [hc] at h3
      cases hsym : dictGet fs "stock_symbol" with
      | none => simp [hsym] at h3
      | some s =>
        simp [hsym] at h3
        cases h3
        simpa using hydrateEntries_ok es entries hh

/-- C7 witness: end-to-end scenario B — the `/stock/ACME/orderbook`
response hydrates to an `Orderbook` preserving the source order of the
two price levels. -/
theorem C7_witness :
    ([⟨.num 10, .num 3⟩, ⟨.num 11, .num 1⟩] : List OrderbookEntry).length =
      [Json.obj [("price", .num 10), ("amount", .num 3)],
       Json.obj [("price", .num 11), ("amount", .num 1)]].length :=
  (C7_orderbook_order
    (.success ⟨200,
      "\x7b\"stock_symbol\": \"ACME\", \"orders\": [\x7b\"price\": 10, \"amount\": 3\x7d, \x7b\"price\": 11, \"amount\": 1\x7d]\x7d"⟩)
    [("stock_symbol", .str "ACME"),
     ("orders", .arr [.obj [("price", .num 10), ("amount", .num 3)],
                      .obj [("price", .num 11), ("amount", .num 1)]])]
    [.obj [("price", .num 10), ("amount", .num 3)],
     .obj [("price", .num 11), ("amount", .num 1)]]
    ⟨.str "ACME", [⟨.num 10, .num 3⟩, ⟨.num 11, .num 1⟩]⟩
    rfl rfl rfl).1

/-- C8: when the version call succeeds with a (non-empty) version string,
`_check_version` compares exactly the leading components before the first
`.` of the client's fixed version string and of the server's string: on a
mismatch it emits one warning naming both full version strings, on a
match it emits nothing, and in both cases the check completes normally. -/
theorem C8_version_compare (t : TransportResult) (sr : SuccessResponse)
    (fs : List (String × Json)) (v : String)
    (h1 : get_version t = .ok sr) (h2 : sr.details = .obj fs)
    (h3 : dictGet fs "version" = some (.str v)) (h4 : v ≠ "") :
    (majorOf CLIENT_VERSION ≠ majorOf v →
        check_version t = .ok [mismatchWarning CLIENT_VERSION v]) ∧
    (majorOf CLIENT_VERSION = majorOf v → check_version t = .ok []) ∧
    (∃ pre mid post, mismatchWarning CLIENT_VERSION v =
        pre ++ CLIENT_VERSION ++ mid ++ v ++ post) := by
  obtain ⟨m, det⟩ := sr
  have h2' : det = Json.obj fs := h2
  subst h2'
  have hf : pyFalsy (.str v) = false := by
    simp [pyFalsy]
    exact h4
  refine ⟨?_, ?_, ?_⟩
  · intro hm
    unfold check_version
    simp [h1, h3, hf, hm]
  · intro hm
    unfold check_version
    simp [h1, h3, hf, hm]
  · exact ⟨"Warning: クライアントバージョン (", ") とサーバーバージョン (",
      ") の メジャーバージョンが一致しません。機能が正常に動作しない可能性があります。", rfl⟩

/-- C8 witness: a mismatching server version `2.3.1` produces the warning
naming both versions, and a matching server version `1.2.3` produces no
output. -/
theorem C8_witness :
    check_version
        (.success ⟨200, "\x7b\"message\": \"ok\", \"details\": \x7b\"version\": \"2.3.1\"\x7d\x7d"⟩) =
      .ok [mismatchWarning CLIENT_VERSION "2.3.1"] ∧
    check_version
        (.success ⟨200, "\x7b\"message\": \"ok\", \"details\": \x7b\"version\": \"1.2.3\"\x7d\x7d"⟩) =
      .ok [] :=
  ⟨(C8_version_compare
      (.success ⟨200, "\x7b\"message\": \"ok\", \"details\": \x7b\"version\": \"2.3.1\"\x7d\x7d"⟩)
      ⟨.str "ok", .obj [("version", .str "2.3.1")]⟩ [("version", .str "2.3.1")] "2.3.1"
      rfl rfl rfl (by decide)).1 (by decide),
   (C8_version_compare
      (.success ⟨200, "\x7b\"message\": \"ok\", \"details\": \x7b\"version\": \"1.2.3\"\x7d\x7d"⟩)
      ⟨.str "ok", .obj [("version", .str "1.2.3")]⟩ [("version", .str "1.2.3")] "1.2.3"
      rfl rfl rfl (by decide)).2.1 rfl⟩
